import Mathlib

/-!
Shallow embedding of the outlier scoring engine of `src/app.py`
(`analyze_videos` and the per-record loop body it runs).

The engine part of `analyze_videos` (everything after the API responses
have been fetched and deserialized) is a pure computation over
  * the list of video items returned by `videos().list`,
  * the channel-id → subscriber-count map (`channel_subs`),
  * the video-id → thumbnail-url map (`search_thumbnails`),
  * the parameters `view_multiplier` and `min_views`,
  * the evaluation timestamp (`datetime.now(timezone.utc)`).

Python's float arithmetic is embedded as exact rational arithmetic (ℚ);
timestamps are seconds since the epoch (ℤ, UTC); a `timedelta.days` is
`Int.fdiv` of the second difference by 86400 (Python floor-divides).
Missing JSON keys are `Option.none`; `dict.get(k, d)` is `Option.getD`.
-/

namespace YTOutlier

/-- One item of the `videos().list` API response, with the fields
`analyze_videos` reads: `statistics.viewCount / likeCount / commentCount`
and `snippet.publishedAt / title / channelId / thumbnails.medium.url`.
`Option.none` models a missing key. -/
structure VideoItem where
  videoId : String
  title : String
  publishedAt : Option Int
  viewCount : Option Nat
  likeCount : Option Nat
  commentCount : Option Nat
  channelId : String
  snippetThumb : String
  deriving Repr, DecidableEq

/-- One row of the dataframe built by the loop in `analyze_videos`
(the dict appended to `rows`). -/
structure ScoredRow where
  title : String
  publish_date : Int
  views : Nat
  velocity : ℚ
  engagement_rate : ℚ
  subscribers : Nat
  multiplier_ratio : ℚ
  outlier_score : ℚ
  is_outlier : Bool
  video_id : String
  thumbnail : String
  channel_id : String
  likes : Nat
  comments : Nat
  age_days : Int
  deriving Repr, DecidableEq

/-- The body of the `for v in videos` loop once a record passed the
missing-field check, before the `min_views` filter: builds the row dict
from `views`, `pub` and the record's optional fields. -/
def buildRow (channel_subs : String → Option Nat)
    (search_thumbnails : String → Option String)
    (view_multiplier : ℚ) (now : Int)
    (v : VideoItem) (views : Nat) (pub : Int) : ScoredRow :=
  let age_days : Int := max 1 (Int.fdiv (now - pub) 86400)
  let likes : Nat := v.likeCount.getD 0
  let comments : Nat := v.commentCount.getD 0
  let subs : Nat := (channel_subs v.channelId).getD 0
  let engagement_rate : ℚ :=
    if views > 0 then ((likes : ℚ) + (comments : ℚ)) / (views : ℚ) else 0
  let thumb0 : String := (search_thumbnails v.videoId).getD v.snippetThumb
  let thumbnail : String :=
    if thumb0 = "" then
      "https://img.youtube.com/vi/" ++ v.videoId ++ "/mqdefault.jpg"
    else thumb0
  let multiplier_ratio : ℚ := (views : ℚ) / ((max subs 1 : Nat) : ℚ)
  let is_outlier : Bool := decide (view_multiplier < multiplier_ratio)
  let outlier_score : ℚ := multiplier_ratio
  { title := v.title
    publish_date := pub
    views := views
    velocity := (views : ℚ) / ((age_days : Int) : ℚ)
    engagement_rate := engagement_rate
    subscribers := subs
    multiplier_ratio := multiplier_ratio
    outlier_score := outlier_score
    is_outlier := is_outlier
    video_id := v.videoId
    thumbnail := thumbnail
    channel_id := v.channelId
    likes := likes
    comments := comments
    age_days := age_days }

/-- One iteration of the loop in `analyze_videos`: skip the record when
`viewCount` or `publishedAt` is missing (`continue` at the missing-field
check) or when `views < min_views` (`continue` at the threshold filter),
otherwise produce the scored row. -/
def scoreVideo (channel_subs : String → Option Nat)
    (search_thumbnails : String → Option String)
    (view_multiplier : ℚ) (min_views : Nat) (now : Int)
    (v : VideoItem) : Option ScoredRow :=
  match v.viewCount, v.publishedAt with
  | some views, some pub =>
      if views < min_views then none
      else some (buildRow channel_subs search_thumbnails view_multiplier now v views pub)
  | _, _ => none

/-- Result of the engine part of `analyze_videos`: either the
no-surviving-rows message (the `if not rows:` early return) or the pair
`(df, outliers_df)`. -/
inductive AnalyzeResult where
  | noData (msg : String)
  | scored (df : List ScoredRow) (outliers : List ScoredRow)
  deriving Repr, DecidableEq

/-- The key used by `sort_values("outlier_score", ascending=False)`. -/
def scoreDesc (a b : ScoredRow) : Bool :=
  decide (b.outlier_score ≤ a.outlier_score)

/-- The engine part of `analyze_videos` (src/app.py lines 157-212):
build `rows` from the fetched video items, return the no-data message if
none survive, otherwise return `df` (the rows in retained input order)
and `outliers_df = df[df["is_outlier"]].sort_values("outlier_score",
ascending=False)`. -/
def analyze_videos (channel_subs : String → Option Nat)
    (search_thumbnails : String → Option String)
    (view_multiplier : ℚ) (min_views : Nat) (now : Int)
    (videos : List VideoItem) : AnalyzeResult :=
  let rows := videos.filterMap
    (scoreVideo channel_subs search_thumbnails view_multiplier min_views now)
  if rows.isEmpty then
    .noData "No videos meet the criteria (high views from small channels)."
  else
    .scored rows (((rows.filter (fun r => r.is_outlier)).mergeSort scoreDesc))

/-- The full scored table of a result (`df`), empty in the no-data case. -/
def dfOf : AnalyzeResult → List ScoredRow
  | .noData _ => []
  | .scored df _ => df

/-- The outlier subset of a result (`outliers_df`), empty in the no-data case. -/
def outliersOf : AnalyzeResult → List ScoredRow
  | .noData _ => []
  | .scored _ o => o

/-! ### Characterization of one loop iteration -/

theorem scoreVideo_eq_some_iff (channel_subs : String → Option Nat)
    (search_thumbnails : String → Option String)
    (view_multiplier : ℚ) (min_views : Nat) (now : Int)
    (v : VideoItem) (r : ScoredRow) :
    scoreVideo channel_subs search_thumbnails view_multiplier min_views now v = some r ↔
      ∃ views pub, v.viewCount = some views ∧ v.publishedAt = some pub ∧
        min_views ≤ views ∧
        r = buildRow channel_subs search_thumbnails view_multiplier now v views pub := by
  unfold scoreVideo
  cases hv : v.viewCount with
  | none => simp
  | some views =>
    cases hp : v.publishedAt with
    | none => simp
    | some pub =>
      by_cases hlt : views < min_views
      · simp [hlt, Nat.not_le_of_lt hlt]
      · simp only [if_neg hlt, Option.some.injEq]
        constructor
        · rintro rfl
          exact ⟨views, pub, rfl, rfl, Nat.le_of_not_lt hlt, rfl⟩
        · rintro ⟨w, p, hw, hpp, _, rfl⟩
          cases hw; cases hpp; rfl

theorem buildRow_views (cs : String → Option Nat) (st : String → Option String)
    (vm : ℚ) (now : Int) (v : VideoItem) (views : Nat) (pub : Int) :
    (buildRow cs st vm now v views pub).views = views := rfl

theorem buildRow_subscribers (cs : String → Option Nat) (st : String → Option String)
    (vm : ℚ) (now : Int) (v : VideoItem) (views : Nat) (pub : Int) :
    (buildRow cs st vm now v views pub).subscribers = (cs v.channelId).getD 0 := rfl

theorem buildRow_outlier_score (cs : String → Option Nat) (st : String → Option String)
    (vm : ℚ) (now : Int) (v : VideoItem) (views : Nat) (pub : Int) :
    (buildRow cs st vm now v views pub).outlier_score =
      (views : ℚ) / ((max ((cs v.channelId).getD 0) 1 : Nat) : ℚ) := rfl

theorem buildRow_is_outlier (cs : String → Option Nat) (st : String → Option String)
    (vm : ℚ) (now : Int) (v : VideoItem) (views : Nat) (pub : Int) :
    (buildRow cs st vm now v views pub).is_outlier =
      decide (vm < (views : ℚ) / ((max ((cs v.channelId).getD 0) 1 : Nat) : ℚ)) := rfl

theorem buildRow_age_days (cs : String → Option Nat) (st : String → Option String)
    (vm : ℚ) (now : Int) (v : VideoItem) (views : Nat) (pub : Int) :
    (buildRow cs st vm now v views pub).age_days =
      max 1 (Int.fdiv (now - pub) 86400) := rfl

theorem buildRow_engagement_rate (cs : String → Option Nat) (st : String → Option String)
    (vm : ℚ) (now : Int) (v : VideoItem) (views : Nat) (pub : Int) :
    (buildRow cs st vm now v views pub).engagement_rate =
      if views > 0
      then ((v.likeCount.getD 0 : ℚ) + (v.commentCount.getD 0 : ℚ)) / (views : ℚ)
      else 0 := rfl

theorem buildRow_likes (cs : String → Option Nat) (st : String → Option String)
    (vm : ℚ) (now : Int) (v : VideoItem) (views : Nat) (pub : Int) :
    (buildRow cs st vm now v views pub).likes = v.likeCount.getD 0 := rfl

theorem buildRow_comments (cs : String → Option Nat) (st : String → Option String)
    (vm : ℚ) (now : Int) (v : VideoItem) (views : Nat) (pub : Int) :
    (buildRow cs st vm now v views pub).comments = v.commentCount.getD 0 := rfl

/-! ### C1 -/

/-- C1: in vs-subscribers mode every retained record gets
`outlierScore = viewCount / max(1, subscriberCount)` (so with
`subscriberCount = 0` the score is `viewCount`), and `isOutlier` holds
exactly when `outlierScore > viewMultiplier` and `viewCount ≥ minViews`. -/
theorem c1_vs_subscribers_score_and_flag
    (channel_subs : String → Option Nat) (search_thumbnails : String → Option String)
    (view_multiplier : ℚ) (min_views : Nat) (now : Int)
    (v : VideoItem) (r : ScoredRow)
    (h : scoreVideo channel_subs search_thumbnails view_multiplier min_views now v = some r) :
    r.outlier_score = (r.views : ℚ) / ((max r.subscribers 1 : Nat) : ℚ)
    ∧ (r.subscribers = 0 → r.outlier_score = (r.views : ℚ))
    ∧ (r.is_outlier = true ↔
        (view_multiplier < r.outlier_score ∧ min_views ≤ r.views)) := by
  rw [scoreVideo_eq_some_iff] at h
  obtain ⟨views, pub, _, _, hmin, rfl⟩ := h
  rw [buildRow_views, buildRow_subscribers, buildRow_outlier_score, buildRow_is_outlier]
  refine ⟨rfl, ?_, ?_⟩
  · intro hsub
    rw [hsub]
    norm_num
  · simp [hmin]

/-! ### Concrete inputs used by the witnesses -/

def exSubs0 : String → Option Nat := fun _ => some 0

def exThumbs : String → Option String := fun _ => none

def vEx : VideoItem :=
  ⟨"vid1", "Example video", some 0, some 200000, some 100, some 10, "ch1", "thumb1"⟩

def rEx1 : ScoredRow :=
  ⟨"Example video", 0, 200000, 200000, 11/20000, 0, 200000, 200000, true,
    "vid1", "thumb1", "ch1", 100, 10, 1⟩

theorem c1_witness :
    scoreVideo exSubs0 exThumbs 100 100000 86400 vEx = some rEx1
    ∧ (rEx1.outlier_score = (rEx1.views : ℚ) / ((max rEx1.subscribers 1 : Nat) : ℚ)
       ∧ (rEx1.subscribers = 0 → rEx1.outlier_score = (rEx1.views : ℚ))
       ∧ (rEx1.is_outlier = true ↔
           ((100 : ℚ) < rEx1.outlier_score ∧ 100000 ≤ rEx1.views))) :=
  ⟨by simp [scoreVideo, buildRow, vEx, rEx1, exSubs0, exThumbs]; norm_num [Int.fdiv],
   c1_vs_subscribers_score_and_flag exSubs0 exThumbs 100 100000 86400 vEx rEx1
     (by simp [scoreVideo, buildRow, vEx, rEx1, exSubs0, exThumbs]; norm_num [Int.fdiv])⟩

/-! ### C7 -/

/-- C7: in vs-subscribers mode, with `subscriberCount` (and every other
field) held fixed, increasing `viewCount` never decreases `outlierScore`
and never flips `isOutlier` from true to false. -/
theorem c7_monotonic_in_views
    (channel_subs : String → Option Nat) (search_thumbnails : String → Option String)
    (view_multiplier : ℚ) (min_views : Nat) (now : Int)
    (v : VideoItem) (views views' : Nat) (r : ScoredRow)
    (hle : views ≤ views')
    (h : scoreVideo channel_subs search_thumbnails view_multiplier min_views now
          { v with viewCount := some views } = some r) :
    ∃ r', scoreVideo channel_subs search_thumbnails view_multiplier min_views now
            { v with viewCount := some views' } = some r'
      ∧ r.outlier_score ≤ r'.outlier_score
      ∧ (r.is_outlier = true → r'.is_outlier = true) := by
  rw [scoreVideo_eq_some_iff] at h
  obtain ⟨w, pub, hw, hp, hmin, rfl⟩ := h
  simp only [Option.some.injEq] at hw
  subst hw
  have hd : (0 : ℚ) <
      ((max ((channel_subs ({ v with viewCount := some views }).channelId).getD 0) 1
        : Nat) : ℚ) := by
    exact_mod_cast Nat.lt_of_lt_of_le Nat.zero_lt_one (le_max_right _ _)
  have hscore :
      (views : ℚ) /
        ((max ((channel_subs ({ v with viewCount := some views }).channelId).getD 0) 1
          : Nat) : ℚ)
      ≤ (views' : ℚ) /
        ((max ((channel_subs ({ v with viewCount := some views }).channelId).getD 0) 1
          : Nat) : ℚ) :=
    (div_le_div_iff_of_pos_right hd).mpr (by exact_mod_cast hle)
  refine ⟨buildRow channel_subs search_thumbnails view_multiplier now
      { v with viewCount := some views' } views' pub, ?_, ?_, ?_⟩
  · rw [scoreVideo_eq_some_iff]
    exact ⟨views', pub, rfl, hp, le_trans hmin hle, rfl⟩
  · rw [buildRow_outlier_score, buildRow_outlier_score]
    exact hscore
  · rw [buildRow_is_outlier, buildRow_is_outlier]
    intro hout
    rw [decide_eq_true_iff] at hout ⊢
    exact lt_of_lt_of_le hout hscore

theorem c7_witness :
    ∃ r', scoreVideo exSubs0 exThumbs 100 100000 86400
            { vEx with viewCount := some 300000 } = some r'
      ∧ rEx1.outlier_score ≤ r'.outlier_score
      ∧ (rEx1.is_outlier = true → r'.is_outlier = true) :=
  c7_monotonic_in_views exSubs0 exThumbs 100 100000 86400 vEx 200000 300000 rEx1
    (by norm_num)
    (by simp [scoreVideo, buildRow, vEx, rEx1, exSubs0, exThumbs]; norm_num [Int.fdiv])

/-! ### C8 -/

/-- C8: every retained record's `ageDays` is `max(1, whole days between
publishedAt and now)` (`timedelta.days` floor-divides the second
difference by 86400), hence `ageDays ≥ 1` even when `publishedAt = now`. -/
theorem c8_age_days_floor
    (channel_subs : String → Option Nat) (search_thumbnails : String → Option String)
    (view_multiplier : ℚ) (min_views : Nat) (now : Int)
    (v : VideoItem) (r : ScoredRow) (pub : Int)
    (hp : v.publishedAt = some pub)
    (h : scoreVideo channel_subs search_thumbnails view_multiplier min_views now v
          = some r) :
    r.age_days = max 1 (Int.fdiv (now - pub) 86400) ∧ 1 ≤ r.age_days := by
  rw [scoreVideo_eq_some_iff] at h
  obtain ⟨views, pub', _, hp', _, rfl⟩ := h
  rw [hp] at hp'
  cases hp'
  rw [buildRow_age_days]
  exact ⟨rfl, le_max_left _ _⟩

theorem c8_witness :
    rEx1.age_days = max 1 (Int.fdiv ((0 : Int) - 0) 86400) ∧ 1 ≤ rEx1.age_days :=
  c8_age_days_floor exSubs0 exThumbs 100 100000 0 vEx rEx1 0 rfl
    (by simp [scoreVideo, buildRow, vEx, rEx1, exSubs0, exThumbs]; norm_num [Int.fdiv])

/-! ### C9 -/

/-- C9: every retained record's `engagementRate` is
`(likeCount + commentCount) / viewCount` when `viewCount > 0` and `0`
when `viewCount = 0`, so the division is never by zero. -/
theorem c9_engagement_rate_guarded
    (channel_subs : String → Option Nat) (search_thumbnails : String → Option String)
    (view_multiplier : ℚ) (min_views : Nat) (now : Int)
    (v : VideoItem) (r : ScoredRow)
    (h : scoreVideo channel_subs search_thumbnails view_multiplier min_views now v
          = some r) :
    r.engagement_rate =
      (if 0 < r.views then ((r.likes : ℚ) + (r.comments : ℚ)) / (r.views : ℚ) else 0)
    ∧ (r.views = 0 → r.engagement_rate = 0) := by
  rw [scoreVideo_eq_some_iff] at h
  obtain ⟨views, pub, _, _, _, rfl⟩ := h
  rw [buildRow_engagement_rate, buildRow_views, buildRow_likes, buildRow_comments]
  constructor
  · rfl
  · intro hzero
    rw [hzero]
    norm_num

def vZero : VideoItem :=
  ⟨"vid0", "Zero views", some 0, some 0, some 5, some 3, "ch1", ""⟩

def rZero : ScoredRow :=
  ⟨"Zero views", 0, 0, 0, 0, 0, 0, 0, false,
    "vid0", "https://img.youtube.com/vi/vid0/mqdefault.jpg", "ch1", 5, 3, 1⟩

theorem c9_witness :
    rZero.engagement_rate =
      (if 0 < rZero.views
       then ((rZero.likes : ℚ) + (rZero.comments : ℚ)) / (rZero.views : ℚ) else 0)
    ∧ (rZero.views = 0 → rZero.engagement_rate = 0) :=
  c9_engagement_rate_guarded exSubs0 exThumbs 100 0 86400 vZero rZero
    (by simp [scoreVideo, buildRow, vZero, rZero, exSubs0, exThumbs])

/-! ### C3 -/

theorem scoreVideo_congr (subs1 subs2 : String → Option Nat)
    (th1 th2 : String → Option String)
    (vm : ℚ) (mv : Nat) (now : Int) (v : VideoItem)
    (hs : subs1 v.channelId = subs2 v.channelId)
    (ht : th1 v.videoId = th2 v.videoId) :
    scoreVideo subs1 th1 vm mv now v = scoreVideo subs2 th2 vm mv now v := by
  unfold scoreVideo buildRow
  rw [hs, ht]

/-- C3: the engine is a pure function of its arguments and `now`: its
output depends on nothing but the video list, the parts of the two maps
the listed records reference, the parameters and `now` (no hidden state),
and two calls with identical inputs and the same `now` return identical
outputs (idempotence, no hidden randomness). -/
theorem c3_pure_function_of_inputs
    (subs1 subs2 : String → Option Nat) (th1 th2 : String → Option String)
    (view_multiplier : ℚ) (min_views : Nat) (now : Int) (videos : List VideoItem)
    (hs : ∀ v ∈ videos, subs1 v.channelId = subs2 v.channelId)
    (ht : ∀ v ∈ videos, th1 v.videoId = th2 v.videoId) :
    analyze_videos subs1 th1 view_multiplier min_views now videos =
      analyze_videos subs2 th2 view_multiplier min_views now videos
    ∧ analyze_videos subs1 th1 view_multiplier min_views now videos =
      analyze_videos subs1 th1 view_multiplier min_views now videos := by
  refine ⟨?_, rfl⟩
  unfold analyze_videos
  have hrows : videos.filterMap (scoreVideo subs1 th1 view_multiplier min_views now) =
      videos.filterMap (scoreVideo subs2 th2 view_multiplier min_views now) :=
    List.filterMap_congr fun v hv =>
      scoreVideo_congr subs1 subs2 th1 th2 view_multiplier min_views now v
        (hs v hv) (ht v hv)
  rw [hrows]

def exSubsOnly1 : String → Option Nat := fun c => if c = "ch1" then some 0 else none

def exSubsOther : String → Option Nat := fun c => if c = "ch1" then some 0 else some 999

theorem c3_witness :
    analyze_videos exSubsOnly1 exThumbs 100 100000 86400 [vEx] =
      analyze_videos exSubsOther exThumbs 100 100000 86400 [vEx]
    ∧ analyze_videos exSubsOnly1 exThumbs 100 100000 86400 [vEx] =
      analyze_videos exSubsOnly1 exThumbs 100 100000 86400 [vEx] :=
  c3_pure_function_of_inputs exSubsOnly1 exSubsOther exThumbs exThumbs
    100 100000 86400 [vEx]
    (by intro v hv; simp at hv; subst hv; simp [exSubsOnly1, exSubsOther, vEx])
    (by intro v hv; rfl)

/-! ### C5 -/

/-- C5: when no record survives filtering the engine returns the explicit
no-data message (the `if not rows:` branch), a normal return value
distinct from every scored result (and from a raised exception, which the
pure engine has no way to produce). -/
theorem c5_empty_is_noData
    (channel_subs : String → Option Nat) (search_thumbnails : String → Option String)
    (view_multiplier : ℚ) (min_views : Nat) (now : Int) (videos : List VideoItem)
    (h : videos.filterMap
          (scoreVideo channel_subs search_thumbnails view_multiplier min_views now)
        = []) :
    analyze_videos channel_subs search_thumbnails view_multiplier min_views now videos =
      AnalyzeResult.noData "No videos meet the criteria (high views from small channels)."
    ∧ ∀ df outliers,
        analyze_videos channel_subs search_thumbnails view_multiplier min_views now videos
          ≠ AnalyzeResult.scored df outliers := by
  have h1 : analyze_videos channel_subs search_thumbnails view_multiplier min_views now
      videos =
      AnalyzeResult.noData "No videos meet the criteria (high views from small channels)."
    := by
    unfold analyze_videos
    rw [h]
    rfl
  refine ⟨h1, ?_⟩
  intro df outliers
  rw [h1]
  simp

theorem c5_witness :
    analyze_videos exSubs0 exThumbs 100 100000 86400 [vZero] =
      AnalyzeResult.noData "No videos meet the criteria (high views from small channels)."
    ∧ ∀ df outliers,
        analyze_videos exSubs0 exThumbs 100 100000 86400 [vZero]
          ≠ AnalyzeResult.scored df outliers :=
  c5_empty_is_noData exSubs0 exThumbs 100 100000 86400 [vZero]
    (by simp [scoreVideo, vZero])

/-! ### C10 -/

/-- C10: every scored result's outlier subset consists of exactly the rows
of the full table whose `isOutlier` flag is true (as a permutation of the
flagged rows — the subset is sorted), every subset row is a row of the
full table, and every row of either table has `viewCount ≥ minViews`. -/
theorem c10_outliers_exactly_flagged
    (channel_subs : String → Option Nat) (search_thumbnails : String → Option String)
    (view_multiplier : ℚ) (min_views : Nat) (now : Int) (videos : List VideoItem)
    (df outliers : List ScoredRow)
    (h : analyze_videos channel_subs search_thumbnails view_multiplier min_views now videos
          = AnalyzeResult.scored df outliers) :
    outliers.Perm (df.filter (fun r => r.is_outlier))
    ∧ (∀ r ∈ outliers, r ∈ df ∧ r.is_outlier = true)
    ∧ (∀ r ∈ df, min_views ≤ r.views) := by
  unfold analyze_videos at h
  by_cases hempty :
      (videos.filterMap
        (scoreVideo channel_subs search_thumbnails view_multiplier min_views now)).isEmpty
  · rw [if_pos hempty] at h
    exact absurd h (by simp)
  · rw [if_neg hempty] at h
    injection h with hdf hout
    subst hdf hout
    refine ⟨List.mergeSort_perm _ _, ?_, ?_⟩
    · intro r hr
      have hr' := (List.mergeSort_perm _ scoreDesc).mem_iff.mp hr
      rw [List.mem_filter] at hr'
      exact ⟨hr'.1, hr'.2⟩
    · intro r hr
      rw [List.mem_filterMap] at hr
      obtain ⟨v, _, hv⟩ := hr
      rw [scoreVideo_eq_some_iff] at hv
      obtain ⟨views, pub, _, _, hmin, rfl⟩ := hv
      rw [buildRow_views]
      exact hmin

theorem c10_witness :
    ([rEx1] : List ScoredRow).Perm (([rEx1] : List ScoredRow).filter (fun r => r.is_outlier))
    ∧ (∀ r ∈ ([rEx1] : List ScoredRow), r ∈ ([rEx1] : List ScoredRow) ∧ r.is_outlier = true)
    ∧ (∀ r ∈ ([rEx1] : List ScoredRow), 100000 ≤ r.views) :=
  c10_outliers_exactly_flagged exSubs0 exThumbs 100 100000 86400 [vEx] [rEx1] [rEx1]
    (by simp [analyze_videos, scoreVideo, buildRow, vEx, rEx1, exSubs0, exThumbs,
          List.mergeSort]; norm_num [Int.fdiv])

/-! ### C4 -/

/-- The ordering the spec asserts for both returned lists: `outlierScore`
descending with ties broken by `publishedAt` descending. (Written from
the spec's words, for comparison with what the code returns.) -/
def specOrdered (l : List ScoredRow) : Prop :=
  l.Pairwise (fun a b => b.outlier_score < a.outlier_score ∨
    (a.outlier_score = b.outlier_score ∧ b.publish_date ≤ a.publish_date))

def exSubsB : String → Option Nat := fun _ => some 100000

def vLow : VideoItem :=
  ⟨"vid2", "Low score", some 0, some 100000, some 0, some 0, "ch2", "thumb2"⟩

def vHigh : VideoItem :=
  ⟨"vid3", "High score", some 0, some 400000, some 0, some 0, "ch2", "thumb3"⟩

/-- C4 is false as stated: on the batch `[vLow, vHigh]` (outlier scores
1 and 4) the returned full table keeps the input order `[1, 4]`, which is
not sorted by `outlierScore` descending — `analyze_videos` sorts only the
outlier subset, never `df`. -/
theorem c4_counterexample :
    (dfOf (analyze_videos exSubsB exThumbs 100 100000 86400 [vLow, vHigh])).map
        (fun r => r.outlier_score) = [1, 4]
    ∧ ¬ specOrdered
        (dfOf (analyze_videos exSubsB exThumbs 100 100000 86400 [vLow, vHigh])) := by
  constructor
  · simp [analyze_videos, scoreVideo, buildRow, vLow, vHigh, exSubsB, exThumbs, dfOf]
    norm_num
  · simp [analyze_videos, scoreVideo, buildRow, vLow, vHigh, exSubsB, exThumbs, dfOf,
      specOrdered]
    norm_num

theorem scoreDesc_trans (a b c : ScoredRow)
    (h1 : scoreDesc a b = true) (h2 : scoreDesc b c = true) :
    scoreDesc a c = true := by
  unfold scoreDesc at *
  rw [decide_eq_true_iff] at *
  exact le_trans h2 h1

theorem scoreDesc_total (a b : ScoredRow) :
    (scoreDesc a b || scoreDesc b a) = true := by
  unfold scoreDesc
  rcases le_total a.outlier_score b.outlier_score with h | h <;> simp [h]

/-- C4 amended: the returned outlier subset is sorted by `outlierScore`
descending (with no `publishedAt` tie-break) and is a permutation of the
flagged rows of the full table, while the full scored table is returned
in retained input order (the order of `videos`), not sorted. -/
theorem c4_amended_ordering
    (channel_subs : String → Option Nat) (search_thumbnails : String → Option String)
    (view_multiplier : ℚ) (min_views : Nat) (now : Int) (videos : List VideoItem)
    (df outliers : List ScoredRow)
    (h : analyze_videos channel_subs search_thumbnails view_multiplier min_views now videos
          = AnalyzeResult.scored df outliers) :
    outliers.Pairwise (fun a b => b.outlier_score ≤ a.outlier_score)
    ∧ outliers.Perm (df.filter (fun r => r.is_outlier))
    ∧ df = videos.filterMap
        (scoreVideo channel_subs search_thumbnails view_multiplier min_views now) := by
  unfold analyze_videos at h
  by_cases hempty :
      (videos.filterMap
        (scoreVideo channel_subs search_thumbnails view_multiplier min_views now)).isEmpty
  · rw [if_pos hempty] at h
    exact absurd h (by simp)
  · rw [if_neg hempty] at h
    injection h with hdf hout
    subst hdf hout
    refine ⟨?_, List.mergeSort_perm _ _, rfl⟩
    have hs := @List.sorted_mergeSort ScoredRow scoreDesc
      scoreDesc_trans scoreDesc_total
      ((videos.filterMap
          (scoreVideo channel_subs search_thumbnails view_multiplier min_views
            now)).filter (fun r => r.is_outlier))
    exact hs.imp fun hab => by
      have := hab
      unfold scoreDesc at this
      rwa [decide_eq_true_iff] at this

theorem c4_amended_witness :
    ([rEx1] : List ScoredRow).Pairwise (fun a b => b.outlier_score ≤ a.outlier_score)
    ∧ ([rEx1] : List ScoredRow).Perm
        (([rEx1] : List ScoredRow).filter (fun r => r.is_outlier))
    ∧ ([rEx1] : List ScoredRow) =
        ([vEx] : List VideoItem).filterMap (scoreVideo exSubs0 exThumbs 100 100000 86400) :=
  c4_amended_ordering exSubs0 exThumbs 100 100000 86400 [vEx] [rEx1] [rEx1]
    (by simp [analyze_videos, scoreVideo, buildRow, vEx, rEx1, exSubs0, exThumbs,
          List.mergeSort]; norm_num [Int.fdiv])

/-! ### C2 (spec-modelled: the z-score variants are not in src/app.py) -/

/-- Mean of the retained records' view counts (μ of spec §4). -/
def batchMean (rows : List ScoredRow) : ℚ :=
  ((rows.map fun r => (r.views : ℚ)).sum) / (rows.length : ℚ)

/-- Population variance of the retained records' view counts (σ² of spec §4). -/
def batchVariance (rows : List ScoredRow) : ℚ :=
  ((rows.map fun r => ((r.views : ℚ) - batchMean rows) ^ 2).sum) / (rows.length : ℚ)

/-- Modelled from the spec: the batch-relative z-score the engine attaches
to every retained record. The z-score computation is missing from
src/app.py (only the vs-subscribers variant is in src); spec §4: when the
retained set has ≤ 1 record or σ = 0 the z-score is 0 for every record,
otherwise it is `(viewCount − μ) / σ` with σ the population standard
deviation. -/
noncomputable def zScoreOf (rows : List ScoredRow) (r : ScoredRow) : ℝ :=
  if rows.length ≤ 1 ∨ batchVariance rows = 0 then 0
  else (((r.views : ℚ) : ℝ) - ((batchMean rows : ℚ) : ℝ))
        / Real.sqrt ((batchVariance rows : ℚ) : ℝ)

/-- Modelled from the spec: the z-score column over a retained set. -/
noncomputable def zScores (rows : List ScoredRow) : List ℝ :=
  rows.map (zScoreOf rows)

/-- C2: the engine computes one batch-relative z-score per retained
record; when the retained set has ≤ 1 record or zero view-count variance
every z-score is 0, otherwise each record's z-score is
`(viewCount − μ) / σ`. -/
theorem c2_zscore_degenerate_or_standard (rows : List ScoredRow) :
    (zScores rows).length = rows.length
    ∧ (rows.length ≤ 1 ∨ batchVariance rows = 0 → ∀ z ∈ zScores rows, z = 0)
    ∧ (¬(rows.length ≤ 1 ∨ batchVariance rows = 0) →
        ∀ r ∈ rows, zScoreOf rows r =
          (((r.views : ℚ) : ℝ) - ((batchMean rows : ℚ) : ℝ))
            / Real.sqrt ((batchVariance rows : ℚ) : ℝ)) := by
  refine ⟨List.length_map _ _, ?_, ?_⟩
  · intro hdeg z hz
    rw [zScores, List.mem_map] at hz
    obtain ⟨r, _, rfl⟩ := hz
    rw [zScoreOf, if_pos hdeg]
  · intro hdeg r _
    rw [zScoreOf, if_neg hdeg]

theorem c2_witness : zScoreOf [rEx1] rEx1 = 0 :=
  (c2_zscore_degenerate_or_standard [rEx1]).2.1 (Or.inl (by norm_num))
    (zScoreOf [rEx1] rEx1)
    (by unfold zScores; exact List.mem_map_of_mem _ (List.mem_singleton.mpr rfl))

/-! ### C6 (spec-modelled: the vs-channel-average variant is not in src/app.py) -/

/-- Modelled from the spec: one scored row of the vs-channel-average mode
(spec §4.1 row 2). Only the fields the mode's score and flag need. -/
structure ScoredRowCA where
  video_id : String
  channel_id : String
  views : Nat
  outlier_score : ℚ
  is_outlier : Bool
  deriving Repr, DecidableEq

/-- Modelled from the spec: a record's required channel baseline
(`averageViewsPerVideo`) is zero or missing (spec §7 BaselineUnavailable). -/
def baselineMissing (avgOf : String → Option ℚ) (v : VideoItem) : Bool :=
  match avgOf v.channelId with
  | none => true
  | some a => decide (a = 0)

/-- Modelled from the spec: a record that survives ingestion (has both
`viewCount` and `publishedAt`, spec §4.1 preconditions). -/
def validRecord (v : VideoItem) : Bool :=
  v.viewCount.isSome && v.publishedAt.isSome

/-- Modelled from the spec: scoring one record in vs-channel-average mode
(spec §4.1): `outlierScore = viewCount / max(1, averageViewsPerVideo)`,
flagged when `outlierScore > avgMultiplier`; excluded (`none`) when the
channel baseline is zero or missing, rather than scored against a floored
divisor. -/
def scoreVideoCA (avgOf : String → Option ℚ) (avgMultiplier : ℚ)
    (v : VideoItem) : Option ScoredRowCA :=
  match v.viewCount, v.publishedAt with
  | some views, some _ =>
      match avgOf v.channelId with
      | none => none
      | some avg =>
          if avg = 0 then none
          else
            some ⟨v.videoId, v.channelId, views, (views : ℚ) / max 1 avg,
              decide (avgMultiplier < (views : ℚ) / max 1 avg)⟩
  | _, _ => none

/-- Modelled from the spec: the `ScoredBatch` of spec §6 — full scored
list, outlier subset, and the count of records excluded for an
unavailable baseline. -/
structure ScoredBatchCA where
  rows : List ScoredRowCA
  outliers : List ScoredRowCA
  baselineUnavailable : Nat
  deriving Repr, DecidableEq

/-- Modelled from the spec: the vs-channel-average engine (spec §4.1 and
§7): drop invalid records, exclude and count records whose baseline is
zero/missing, score the rest. -/
def analyzeChannelAvg (avgOf : String → Option ℚ) (avgMultiplier : ℚ)
    (videos : List VideoItem) : ScoredBatchCA :=
  let valid := videos.filter validRecord
  { rows := valid.filterMap (scoreVideoCA avgOf avgMultiplier)
    outliers := (valid.filterMap (scoreVideoCA avgOf avgMultiplier)).filter
      (fun r => r.is_outlier)
    baselineUnavailable := (valid.filter (fun v => baselineMissing avgOf v)).length }

theorem scoreVideoCA_none_iff_baselineMissing (avgOf : String → Option ℚ)
    (avgMultiplier : ℚ) (v : VideoItem) (hvalid : validRecord v = true) :
    scoreVideoCA avgOf avgMultiplier v = none ↔ baselineMissing avgOf v = true := by
  rw [validRecord, Bool.and_eq_true, Option.isSome_iff_exists, Option.isSome_iff_exists]
    at hvalid
  obtain ⟨⟨views, hv⟩, ⟨pub, hp⟩⟩ := hvalid
  rw [scoreVideoCA, baselineMissing, hv, hp]
  cases havg : avgOf v.channelId with
  | none => simp
  | some a =>
    by_cases ha : a = 0
    · simp [ha]
    · simp [ha]

theorem count_valid_split (avgOf : String → Option ℚ) (avgMultiplier : ℚ)
    (l : List VideoItem) (hval : ∀ v ∈ l, validRecord v = true) :
    (l.filterMap (scoreVideoCA avgOf avgMultiplier)).length
      + (l.filter (fun v => baselineMissing avgOf v)).length = l.length := by
  induction l with
  | nil => rfl
  | cons v t ih =>
    have hv : validRecord v = true := hval v (List.mem_cons_self v t)
    have iht := ih fun w hw => hval w (List.mem_cons_of_mem v hw)
    cases hres : scoreVideoCA avgOf avgMultiplier v with
    | none =>
      have hmiss : baselineMissing avgOf v = true :=
        (scoreVideoCA_none_iff_baselineMissing avgOf avgMultiplier v hv).mp hres
      simp only [List.filterMap_cons, List.filter_cons, hres, hmiss, if_true,
        List.length_cons]
      omega
    | some r =>
      have hmiss : baselineMissing avgOf v = false := by
        rw [← Bool.not_eq_true]
        intro hm
        rw [← scoreVideoCA_none_iff_baselineMissing avgOf avgMultiplier v hv] at hm
        rw [hres] at hm
        exact Option.noConfusion hm
      simp only [List.filterMap_cons, List.filter_cons, hres, hmiss,
        Bool.false_eq_true, if_false, List.length_cons]
      omega

/-- C6: in the vs-channel-average mode every record whose required channel
baseline is zero or missing is excluded from the scored rows (every scored
row has a present, non-zero baseline), and the output's
`baselineUnavailable` count is exactly the number of such records among
the valid ones, so scored rows plus exclusions account for every valid
record. -/
theorem c6_baseline_unavailable_counted (avgOf : String → Option ℚ)
    (avgMultiplier : ℚ) (videos : List VideoItem) :
    (∀ r ∈ (analyzeChannelAvg avgOf avgMultiplier videos).rows,
        ∃ a, avgOf r.channel_id = some a ∧ a ≠ 0)
    ∧ (analyzeChannelAvg avgOf avgMultiplier videos).baselineUnavailable =
        ((videos.filter validRecord).filter
          (fun v => baselineMissing avgOf v)).length
    ∧ (analyzeChannelAvg avgOf avgMultiplier videos).rows.length
        + (analyzeChannelAvg avgOf avgMultiplier videos).baselineUnavailable
      = (videos.filter validRecord).length := by
  refine ⟨?_, rfl, ?_⟩
  · intro r hr
    rw [analyzeChannelAvg] at hr
    simp only [List.mem_filterMap] at hr
    obtain ⟨v, _, hv⟩ := hr
    cases hvc : v.viewCount with
    | none => simp [scoreVideoCA, hvc] at hv
    | some views =>
      cases hpc : v.publishedAt with
      | none => simp [scoreVideoCA, hvc, hpc] at hv
      | some pub =>
        cases havg : avgOf v.channelId with
        | none => simp [scoreVideoCA, hvc, hpc, havg] at hv
        | some a =>
          by_cases ha : a = 0
          · simp [scoreVideoCA, hvc, hpc, havg, ha] at hv
          · refine ⟨a, ?_, ha⟩
            simp only [scoreVideoCA, hvc, hpc, havg, if_neg ha,
              Option.some.injEq] at hv
            rw [← hv]
            exact havg
  · exact count_valid_split avgOf avgMultiplier (videos.filter validRecord)
      fun v hv => List.of_mem_filter hv

def exAvg : String → Option ℚ := fun c => if c = "ch1" then some 0 else some 2

theorem c6_witness :
    (∀ r ∈ (analyzeChannelAvg exAvg 5 [vEx, vHigh]).rows,
        ∃ a, exAvg r.channel_id = some a ∧ a ≠ 0)
    ∧ (analyzeChannelAvg exAvg 5 [vEx, vHigh]).baselineUnavailable =
        ((([vEx, vHigh] : List VideoItem).filter validRecord).filter
          (fun v => baselineMissing exAvg v)).length
    ∧ (analyzeChannelAvg exAvg 5 [vEx, vHigh]).rows.length
        + (analyzeChannelAvg exAvg 5 [vEx, vHigh]).baselineUnavailable
      = (([vEx, vHigh] : List VideoItem).filter validRecord).length :=
  c6_baseline_unavailable_counted exAvg 5 [vEx, vHigh]

end YTOutlier
